import Mathlib

/-!
# The `Joint` adapter of `scenario_monopod`

A shallow embedding of `src/monopod/src/Joint.cpp`.  The class `Joint` wraps one indexed
joint of a `monopod_drivers::Monopod` driver object.  Its methods are embedded as state
transformers over

* the private data `Joint::Impl`,
* the driver objects reachable through `std::shared_ptr` handles, and
* a trace recording every driver method invoked and every log statement executed.

The type of C++ `double` values is a parameter `R`: the adapter only stores and forwards such
values, compares them once (to decide whether a warning is logged) and prints them.
-/

namespace ScenarioMonopod

/-! ## External declarations -/

/-- Modelled from the spec: the enumeration `scenario::core::JointType`, whose declaration
(`scenario/core/Joint.h`) is outside the source file.  `Joint::dofs` names `Fixed`, `Revolute`,
`Prismatic` and `Invalid`; `Ball` stands for every further kind. -/
inductive JointType where
  | Invalid
  | Fixed
  | Revolute
  | Prismatic
  | Ball
  deriving DecidableEq, Repr

/-- Modelled from the spec: the enumeration `scenario::core::JointControlMode`, whose
declaration is outside the source file.  The adapter names `Idle` and `Force`; the remaining
constructors are the other modes a caller may request. -/
inductive JointControlMode where
  | Invalid
  | Idle
  | Force
  | Velocity
  | Position
  | PositionInterpolated
  deriving DecidableEq, Repr

/-- Modelled from the spec: `scenario::core::PID`, a triple of gains whose default value is the
zero triple. -/
structure PID (R : Type) where
  p : R
  i : R
  d : R
  deriving DecidableEq, Repr

/-- The operations on `double` that `Joint.cpp` uses. -/
structure DoubleOps (R : Type) where
  /-- The value `0.0` (the conversion of the literal `0`). -/
  zero : R
  /-- The function `std::abs`. -/
  abs : R → R
  /-- The comparison `a > b`. -/
  gt : R → R → Bool
  /-- The function `std::to_string`. -/
  to_string : R → String

/-- Modelled from the spec: the methods of `monopod_drivers::Monopod` that the adapter calls
(section 6 of the specification).  The class is outside the source file; each method is a
function of the driver object's state `D` returning its result and the next state. -/
structure Monopod (D R : Type) where
  get_model_name : D → String × D
  get_position : Int → D → Option R × D
  get_velocity : Int → D → Option R × D
  get_acceleration : Int → D → Option R × D
  get_torque_target : Int → D → Option R × D
  set_torque_target : R → Int → D → Bool × D
  get_max_torque_target : Int → D → Option R × D
  set_max_torque_target : R → Int → D → Bool × D
  get_pid : Int → D → Option (PID R) × D
  set_pid : R → R → R → Int → D → Bool × D

/-- A driver method invocation, with its arguments. -/
inductive DriverCall (R : Type) where
  | get_model_name
  | get_position (index : Int)
  | get_velocity (index : Int)
  | get_acceleration (index : Int)
  | get_torque_target (index : Int)
  | set_torque_target (value : R) (index : Int)
  | get_max_torque_target (index : Int)
  | set_max_torque_target (value : R) (index : Int)
  | get_pid (index : Int)
  | set_pid (p i d : R) (index : Int)
  deriving DecidableEq, Repr

/-- The driver methods that command the hardware (the `set_` methods). -/
def DriverCall.isWrite {R : Type} : DriverCall R → Bool
  | .set_torque_target _ _ => true
  | .set_max_torque_target _ _ => true
  | .set_pid _ _ _ _ => true
  | _ => false

/-- Severity of a log statement. -/
inductive Level where
  | INFO
  | WARNING
  | ERROR
  deriving DecidableEq, Repr

/-- An observable effect of a method of `Joint`: a driver method invoked on the driver object
at address `sdk`, or a log statement. -/
inductive Event (R : Type) where
  | call (sdk : Nat) (c : DriverCall R)
  | log (level : Level) (msg : String)
  deriving DecidableEq, Repr

/-- The driver invocations of a trace, in order. -/
def driverCalls {R : Type} (tr : List (Event R)) : List (Nat × DriverCall R) :=
  tr.filterMap fun e =>
    match e with
    | .call sdk c => some (sdk, c)
    | .log _ _ => none

/-- The driver writes of a trace, in order. -/
def driverWrites {R : Type} (tr : List (Event R)) : List (Nat × DriverCall R) :=
  (driverCalls tr).filter fun c => c.2.isWrite

/-! ## State -/

/-- The class `Joint::Impl`.  Its member `jointType` is `const` with initializer `Revolute`
and is the constant `Impl.jointType` below.  A `std::shared_ptr` is the address of a driver
object, `none` for the null pointer. -/
structure Impl (R : Type) where
  jointControlMode : JointControlMode
  jointMaxGeneralizedForce : Option (List R)
  parentModelName : String
  name : String
  monopodSdkIndex : Int
  monopod_sdk : Option Nat

/-- The member `const core::JointType jointType = core::JointType::Revolute`. -/
def Impl.jointType : JointType := JointType.Revolute

/-- What a method of `Joint` reads and changes: the object's `pImpl`, the driver objects by
address, and the trace of effects so far. -/
structure State (D R : Type) where
  pImpl : Impl R
  heap : Nat → D
  trace : List (Event R)

/-- Abnormal outcomes of a method. -/
inductive Exn where
  /-- A method called through a null `monopod_sdk`. -/
  | null_deref
  /-- The exception `std::bad_optional_access` thrown by `optional::value`. -/
  | bad_optional_access
  /-- A vector subscript outside the vector. -/
  | out_of_range
  /-- The statement `assert(false)`. -/
  | assertion_failed
  deriving DecidableEq, Repr

/-- A method of `Joint`: from a state, a result or an abnormal outcome, and the state reached
(at the fault, for an abnormal outcome). -/
def JointM (D R α : Type) : Type := State D R → Except Exn α × State D R

/-- Return a value. -/
def JointM.pure {D R α : Type} (a : α) : JointM D R α := fun s => (Except.ok a, s)

/-- Sequence two computations; an abnormal outcome of the first ends the sequence. -/
def JointM.bind {D R α β : Type} (m : JointM D R α) (f : α → JointM D R β) : JointM D R β :=
  fun s =>
    match m s with
    | (Except.ok a, s1) => f a s1
    | (Except.error e, s1) => (Except.error e, s1)

instance {D R : Type} : Monad (JointM D R) where
  pure := JointM.pure
  bind := JointM.bind

/-- An abnormal outcome. -/
def JointM.fail {D R α : Type} (e : Exn) : JointM D R α := fun s => (Except.error e, s)

/-- Read `pImpl`. -/
def getImpl {D R : Type} : JointM D R (Impl R) := fun s => (Except.ok s.pImpl, s)

/-- Assign to members of `pImpl`. -/
def modifyImpl {D R : Type} (f : Impl R → Impl R) : JointM D R Unit :=
  fun s => (Except.ok (), { s with pImpl := f s.pImpl })

/-- A log statement `LOG(level) << msg`. -/
def LOG {D R : Type} (level : Level) (msg : String) : JointM D R Unit :=
  fun s => (Except.ok (), { s with trace := s.trace ++ [Event.log level msg] })

/-- A call `pImpl->monopod_sdk->method(args)`: a fault when the pointer is null, otherwise the
method runs on the driver object, whose state advances, and the call is recorded. -/
def callSdk {D R β : Type} (c : DriverCall R) (method : D → β × D) : JointM D R β :=
  fun s =>
    match s.pImpl.monopod_sdk with
    | none => (Except.error Exn.null_deref, s)
    | some sdk =>
      ((Except.ok (method (s.heap sdk)).1),
        { s with heap := Function.update s.heap sdk (method (s.heap sdk)).2,
                 trace := s.trace ++ [Event.call sdk c] })

/-- The call `data.value()` on a `std::optional`. -/
def optValue {D R α : Type} (data : Option α) : JointM D R α :=
  match data with
  | some v => JointM.pure v
  | none => JointM.fail Exn.bad_optional_access

/-- The subscript `v[i]` on a `std::vector`. -/
def vecAt {D R α : Type} (v : List α) (i : Nat) : JointM D R α :=
  match v.get? i with
  | some x => JointM.pure x
  | none => JointM.fail Exn.out_of_range

/-- The loop `for (size_t dof = 0; dof < n; ++dof) body`. -/
def forDofs {D R : Type} (n : Nat) (body : Nat → JointM D R Unit) : JointM D R Unit :=
  (List.range n).foldl (fun acc dof => JointM.bind acc fun _ => body dof) (JointM.pure ())

/-! ## The methods of `Joint` -/

section Methods

variable {D R : Type} (dbl : DoubleOps R) (drv : Monopod D R)

/-- The value-initialised `Impl` that `std::make_unique<Impl>()` creates. -/
def Impl.make_unique {R : Type} : Impl R :=
  { jointControlMode := JointControlMode.Idle
    jointMaxGeneralizedForce := none
    parentModelName := ""
    name := ""
    monopodSdkIndex := 0
    monopod_sdk := none }

/-- The constructor `Joint::Joint()`, in a world with the driver objects `heap` and no effect
recorded yet. -/
def Joint.ctor (heap : Nat → D) : State D R :=
  { pImpl := Impl.make_unique, heap := heap, trace := [] }

/-- The method `Joint::type`. -/
def Joint.type : JointM D R JointType :=
  JointM.pure Impl.jointType

/-- The method `Joint::dofs`.  The `default` branch of its switch, `assert(false)`, is the
abnormal outcome `assertion_failed`; with `jointType` fixed at `Revolute` it is never taken. -/
def Joint.dofs : JointM D R Nat := do
  let t ← Joint.type
  match t with
  | JointType.Fixed => pure 1
  | JointType.Revolute => pure 1
  | JointType.Prismatic => pure 1
  | JointType.Invalid => pure 0
  | _ => JointM.fail Exn.assertion_failed

/-- The method `Joint::name`, its parameter `scoped` written `scoped_`; the calls
`this->name()` of the source are `Joint.name false` (the default argument of the interface). -/
def Joint.name (scoped_ : Bool) : JointM D R String := do
  let pImpl ← getImpl
  if scoped_ then
    pure (pImpl.parentModelName ++ "::" ++ pImpl.name)
  else
    pure pImpl.name

/-- The method `Joint::id`; `hash` is `std::hash<std::string>`, whose `size_t` result is
returned as a `uint64_t`. -/
def Joint.id (hash : String → Nat) : JointM D R Nat := do
  let pImpl ← getImpl
  let scopedName ← Joint.name true
  let scopedJointName := pImpl.parentModelName ++ "::" ++ scopedName
  pure (hash scopedJointName % 2 ^ 64)

/-- The method `Joint::initialize`. -/
def Joint.initialize (nameIndexPair : String × Int) (monopod_sdk : Option Nat) :
    JointM D R Bool := do
  modifyImpl fun pImpl => { pImpl with name := nameIndexPair.1 }
  modifyImpl fun pImpl => { pImpl with monopodSdkIndex := nameIndexPair.2 }
  modifyImpl fun pImpl => { pImpl with monopod_sdk := monopod_sdk }
  let modelName ← callSdk DriverCall.get_model_name drv.get_model_name
  modifyImpl fun pImpl => { pImpl with parentModelName := modelName }
  let n ← Joint.dofs
  if n > 1 then
    LOG Level.ERROR "Joints with DoFs > 1 are not currently supported"
    pure false
  else
    pure true

/-- The method `Joint::valid`. -/
def Joint.valid : JointM D R Bool :=
  JointM.pure true

/-- The method `Joint::controlMode`. -/
def Joint.controlMode : JointM D R JointControlMode := do
  let pImpl ← getImpl
  pure pImpl.jointControlMode

/-- The method `Joint::jointPosition`.  The final log statement evaluates `data.value()`
whether or not `data` holds a value. -/
def Joint.jointPosition : JointM D R (List R) := do
  let pImpl ← getImpl
  let data ← callSdk (DriverCall.get_position pImpl.monopodSdkIndex)
    (drv.get_position pImpl.monopodSdkIndex)
  let jointPosition : List R :=
    match data with
    | some v => [] ++ [v]
    | none => []
  let n ← Joint.dofs
  if jointPosition.length ≠ n then
    let nm ← Joint.name false
    LOG Level.ERROR ("The size of velocity being set for the joint '" ++ nm
      ++ "' does not match the joint's DOFs.")
  let nm ← Joint.name false
  let v ← optValue data
  LOG Level.INFO ("Getting position for joint, " ++ nm ++ " = " ++ dbl.to_string v)
  pure jointPosition

/-- The method `Joint::jointVelocity`. -/
def Joint.jointVelocity : JointM D R (List R) := do
  let pImpl ← getImpl
  let data ← callSdk (DriverCall.get_velocity pImpl.monopodSdkIndex)
    (drv.get_velocity pImpl.monopodSdkIndex)
  let jointVelocity : List R :=
    match data with
    | some v => [] ++ [v]
    | none => []
  let n ← Joint.dofs
  if jointVelocity.length ≠ n then
    let nm ← Joint.name false
    LOG Level.ERROR ("The size of velocity being set for the joint '" ++ nm
      ++ "' does not match the joint's DOFs.")
  let nm ← Joint.name false
  let v ← optValue data
  LOG Level.INFO ("Getting velocity for joint, " ++ nm ++ " = " ++ dbl.to_string v)
  pure jointVelocity

/-- The method `Joint::jointAcceleration`. -/
def Joint.jointAcceleration : JointM D R (List R) := do
  let pImpl ← getImpl
  let data ← callSdk (DriverCall.get_acceleration pImpl.monopodSdkIndex)
    (drv.get_acceleration pImpl.monopodSdkIndex)
  let jointAcceleration : List R :=
    match data with
    | some v => [] ++ [v]
    | none => []
  let n ← Joint.dofs
  if jointAcceleration.length ≠ n then
    let nm ← Joint.name false
    LOG Level.ERROR ("The size of acceleration being set for the joint '" ++ nm
      ++ "' does not match the joint's DOFs.")
  let nm ← Joint.name false
  let v ← optValue data
  LOG Level.INFO ("Getting acceleration for joint, " ++ nm ++ " = " ++ dbl.to_string v)
  pure jointAcceleration

/-- The method `Joint::jointGeneralizedForceTarget`. -/
def Joint.jointGeneralizedForceTarget : JointM D R (List R) := do
  let pImpl ← getImpl
  let data ← callSdk (DriverCall.get_torque_target pImpl.monopodSdkIndex)
    (drv.get_torque_target pImpl.monopodSdkIndex)
  match data with
  | some v => pure ([] ++ [v])
  | none => pure []

/-- The method `Joint::jointMaxGeneralizedForce`. -/
def Joint.jointMaxGeneralizedForce : JointM D R (List R) := do
  let pImpl ← getImpl
  let data ← callSdk (DriverCall.get_max_torque_target pImpl.monopodSdkIndex)
    (drv.get_max_torque_target pImpl.monopodSdkIndex)
  match data with
  | some v => pure ([] ++ [v])
  | none => pure ([] ++ [dbl.zero])

/-- The body of the loop over `dof` in `Joint::setJointGeneralizedForceTarget`. -/
def forceLimitCheck (force maxForce : List R) (dof : Nat) : JointM D R Unit := do
  let f ← vecAt force dof
  let m ← vecAt maxForce dof
  if dbl.gt (dbl.abs f) m then
    LOG Level.WARNING "The force target is higher than the limit. Will be clipped."
  else
    pure ()

/-- The method `Joint::setJointGeneralizedForceTarget`. -/
def Joint.setJointGeneralizedForceTarget (force : List R) : JointM D R Bool := do
  let n ← Joint.dofs
  if force.length ≠ n then
    let n1 ← Joint.dofs
    LOG Level.ERROR ("Wrong number of elements (joint_dofs=" ++ toString n1 ++ ")")
    pure false
  else
    let maxForce ← Joint.jointMaxGeneralizedForce dbl drv
    let n2 ← Joint.dofs
    forDofs n2 (forceLimitCheck dbl force maxForce)
    let nm ← Joint.name false
    let msg := force.foldl (fun msg i => msg ++ dbl.to_string i ++ ", ")
      ("Setting the joint, " ++ nm ++ ", to the force value: ")
    LOG Level.INFO msg
    let mode ← Joint.controlMode
    match mode with
    | JointControlMode.Force =>
      let f0 ← vecAt force 0
      let pImpl ← getImpl
      callSdk (DriverCall.set_torque_target f0 pImpl.monopodSdkIndex)
        (drv.set_torque_target f0 pImpl.monopodSdkIndex)
    | _ =>
      let nm1 ← Joint.name false
      LOG Level.ERROR ("Joint, '" ++ nm1 ++ "' is not in force control mode.")
      pure false

/-- The method `Joint::setControlMode`. -/
def Joint.setControlMode (mode : JointControlMode) : JointM D R Bool :=
  match mode with
  | JointControlMode.Force => do
    modifyImpl fun pImpl => { pImpl with jointControlMode := mode }
    let n ← Joint.dofs
    let forcetarget : List R := List.replicate n dbl.zero
    let _ ← Joint.setJointGeneralizedForceTarget dbl drv forcetarget
    pure true
  | _ => do
    LOG Level.ERROR "Only support force control mode."
    pure false

/-- The method `Joint::setJointMaxGeneralizedForce`. -/
def Joint.setJointMaxGeneralizedForce (maxForce : List R) : JointM D R Bool := do
  let n ← Joint.dofs
  if maxForce.length ≠ n then
    let n1 ← Joint.dofs
    LOG Level.ERROR ("Wrong number of elements (joint_dofs=" ++ toString n1 ++ ")")
    pure false
  else
    let m0 ← vecAt maxForce 0
    let pImpl ← getImpl
    callSdk (DriverCall.set_max_torque_target m0 pImpl.monopodSdkIndex)
      (drv.set_max_torque_target m0 pImpl.monopodSdkIndex)

/-- The method `Joint::pid`. -/
def Joint.pid : JointM D R (PID R) := do
  let pImpl ← getImpl
  let data_op ← callSdk (DriverCall.get_pid pImpl.monopodSdkIndex)
    (drv.get_pid pImpl.monopodSdkIndex)
  match data_op with
  | some data => pure { p := data.p, i := data.i, d := data.d }
  | none => pure { p := dbl.zero, i := dbl.zero, d := dbl.zero }

/-- The method `Joint::setPID`. -/
def Joint.setPID (pid : PID R) : JointM D R Bool := do
  let pImpl ← getImpl
  callSdk (DriverCall.set_pid pid.p pid.i pid.d pImpl.monopodSdkIndex)
    (drv.set_pid pid.p pid.i pid.d pImpl.monopodSdkIndex)

/-- The state in which `setJointGeneralizedForceTarget [f]` inspects the control mode: the
driver has answered the maximum-force query, and the warning (when `|f|` exceeds the maximum)
and the informational message are logged. -/
def afterLimitCheck (s : State D R) (sdk : Nat) (f : R) : State D R :=
  { s with
    heap := Function.update s.heap sdk
      (drv.get_max_torque_target s.pImpl.monopodSdkIndex (s.heap sdk)).2,
    trace := s.trace
      ++ [Event.call sdk (DriverCall.get_max_torque_target s.pImpl.monopodSdkIndex)]
      ++ (if dbl.gt (dbl.abs f)
            (((drv.get_max_torque_target s.pImpl.monopodSdkIndex (s.heap sdk)).1).getD dbl.zero)
          then [Event.log Level.WARNING
            "The force target is higher than the limit. Will be clipped."]
          else [])
      ++ [Event.log Level.INFO
            ("Setting the joint, " ++ s.pImpl.name ++ ", to the force value: "
              ++ dbl.to_string f ++ ", ")] }

end Methods

/-! ## Sequences of calls -/

section Calls

variable {D R : Type} (dbl : DoubleOps R) (drv : Monopod D R) (hash : String → Nat)

/-- A call of a method of `Joint`, with its arguments. -/
inductive Call (R : Type) where
  | id
  | init (nameIndexPair : String × Int) (monopod_sdk : Option Nat)
  | valid
  | type
  | dofs
  | name (scoped_ : Bool)
  | setControlMode (mode : JointControlMode)
  | controlMode
  | jointPosition
  | jointVelocity
  | jointAcceleration
  | jointGeneralizedForceTarget
  | setJointGeneralizedForceTarget (force : List R)
  | jointMaxGeneralizedForce
  | setJointMaxGeneralizedForce (maxForce : List R)
  | pid
  | setPID (pid : PID R)

/-- The state a call leaves behind: the state at its return or, when it ends abnormally, at
the fault. -/
def step (c : Call R) (s : State D R) : State D R :=
  match c with
  | Call.id => (Joint.id hash s).2
  | Call.init nameIndexPair monopod_sdk => ( Joint.initialize drv nameIndexPair monopod_sdk s).2
  | Call.valid => (Joint.valid s).2
  | Call.type => (Joint.type s).2
  | Call.dofs => (Joint.dofs s).2
  | Call.name scoped_ => (Joint.name scoped_ s).2
  | Call.setControlMode mode => (Joint.setControlMode dbl drv mode s).2
  | Call.controlMode => (Joint.controlMode s).2
  | Call.jointPosition => (Joint.jointPosition dbl drv s).2
  | Call.jointVelocity => (Joint.jointVelocity dbl drv s).2
  | Call.jointAcceleration => (Joint.jointAcceleration dbl drv s).2
  | Call.jointGeneralizedForceTarget => (Joint.jointGeneralizedForceTarget drv s).2
  | Call.setJointGeneralizedForceTarget force =>
    (Joint.setJointGeneralizedForceTarget dbl drv force s).2
  | Call.jointMaxGeneralizedForce => (Joint.jointMaxGeneralizedForce dbl drv s).2
  | Call.setJointMaxGeneralizedForce maxForce =>
    (Joint.setJointMaxGeneralizedForce drv maxForce s).2
  | Call.pid => (Joint.pid dbl drv s).2
  | Call.setPID pid => (Joint.setPID drv pid s).2

/-- The state after a sequence of calls, made one after the other. -/
def run (cs : List (Call R)) (s : State D R) : State D R :=
  cs.foldl (fun s1 c => step dbl drv hash c s1) s

end Calls

/-! ## A concrete scenario -/

/-- Exact rationals standing in for `double` in concrete scenarios. -/
def ratOps : DoubleOps ℚ where
  zero := 0
  abs := fun q => |q|
  gt := fun a b => decide (b < a)
  to_string := fun q => toString q.num ++ "/" ++ toString q.den

/-- A simulated driver object with one joint, at index `joint`: what its reads report there
(nothing at any other index) and whether it accepts writes there. -/
structure SimDriver where
  joint : Int
  position : Option ℚ
  torque_target : Option ℚ
  max_torque_target : Option ℚ
  accepts : Bool
  deriving DecidableEq, Repr

/-- The methods of the simulated driver. -/
def simMonopod : Monopod SimDriver ℚ where
  get_model_name := fun d => ("monopod", d)
  get_position := fun index d => (if index = d.joint then d.position else none, d)
  get_velocity := fun _ d => (none, d)
  get_acceleration := fun _ d => (none, d)
  get_torque_target := fun index d => (if index = d.joint then d.torque_target else none, d)
  set_torque_target := fun value index d =>
    if index = d.joint ∧ d.accepts then (true, { d with torque_target := some value })
    else (false, d)
  get_max_torque_target := fun index d =>
    (if index = d.joint then d.max_torque_target else none, d)
  set_max_torque_target := fun value index d =>
    if index = d.joint ∧ d.accepts then (true, { d with max_torque_target := some value })
    else (false, d)
  get_pid := fun _ d => (none, d)
  set_pid := fun _ _ _ _ d => (false, d)

/-- The joint `hip`, bound by `initialize` to index 3 of the simulated driver `d` at address
0, straight after construction. -/
def hipJoint (d : SimDriver) : State SimDriver ℚ :=
  ( Joint.initialize simMonopod ("hip", 3) (some 0) (Joint.ctor fun _ => d)).2

/-- A simulated driver whose joint 3 reports `position` and the maximum torque
`max_torque_target`, and accepts writes. -/
def simDriver (position max_torque_target : Option ℚ) : SimDriver :=
  { joint := 3, position := position, torque_target := none,
    max_torque_target := max_torque_target, accepts := true }

/-- A simulated driver whose joint 3 reports no position and a maximum torque of 5. -/
def silentDriver : SimDriver := simDriver none (some 5)

/-- A simulated driver whose joint 3 reports the position 0.42 and a maximum torque of 5. -/
def reportingDriver : SimDriver := simDriver (some 0.42) (some 5)

/-- A simulated driver whose joint 3 reports neither a position nor a maximum torque. -/
def unlimitedDriver : SimDriver := simDriver none none

/-- The joint `hip` after `setControlMode(Force)`. -/
def hipJointForce (d : SimDriver) : State SimDriver ℚ :=
  (Joint.setControlMode ratOps simMonopod JointControlMode.Force (hipJoint d)).2

/-! ## Evaluation rules -/

section Rules

variable {D R : Type}

@[simp] theorem JointM.pure_apply {α : Type} (a : α) (s : State D R) :
    (Pure.pure a : JointM D R α) s = (Except.ok a, s) := rfl

@[simp] theorem JointM.pure_apply2 {α : Type} (a : α) (s : State D R) :
    (JointM.pure a : JointM D R α) s = (Except.ok a, s) := rfl

@[simp] theorem JointM.fail_apply {α : Type} (e : Exn) (s : State D R) :
    (JointM.fail e : JointM D R α) s = (Except.error e, s) := rfl

@[simp] theorem JointM.bind_apply {α β : Type} (m : JointM D R α) (f : α → JointM D R β)
    (s : State D R) :
    (m >>= f) s = JointM.bind m f s := rfl

@[simp] theorem getImpl_apply (s : State D R) :
    (getImpl : JointM D R (Impl R)) s = (Except.ok s.pImpl, s) := rfl

@[simp] theorem modifyImpl_apply (f : Impl R → Impl R) (s : State D R) :
    modifyImpl f s = (Except.ok (), { s with pImpl := f s.pImpl }) := rfl

@[simp] theorem LOG_apply (level : Level) (msg : String) (s : State D R) :
    LOG level msg s = (Except.ok (), { s with trace := s.trace ++ [Event.log level msg] }) :=
  rfl

theorem callSdk_some {β : Type} (c : DriverCall R) (method : D → β × D) (s : State D R)
    (sdk : Nat) (h : s.pImpl.monopod_sdk = some sdk) :
    callSdk c method s =
      (Except.ok (method (s.heap sdk)).1,
        { s with heap := Function.update s.heap sdk (method (s.heap sdk)).2,
                 trace := s.trace ++ [Event.call sdk c] }) := by
  simp [callSdk, h]

@[simp] theorem driverCalls_nil : driverCalls ([] : List (Event R)) = [] := rfl

@[simp] theorem driverCalls_append (t u : List (Event R)) :
    driverCalls (t ++ u) = driverCalls t ++ driverCalls u := by
  simp [driverCalls]

@[simp] theorem driverCalls_cons_call (sdk : Nat) (c : DriverCall R) (t : List (Event R)) :
    driverCalls (Event.call sdk c :: t) = (sdk, c) :: driverCalls t := by
  simp [driverCalls]

@[simp] theorem driverCalls_cons_log (level : Level) (msg : String) (t : List (Event R)) :
    driverCalls (Event.log level msg :: t) = driverCalls t := by
  simp [driverCalls]

@[simp] theorem driverWrites_nil : driverWrites ([] : List (Event R)) = [] := rfl

@[simp] theorem driverWrites_append (t u : List (Event R)) :
    driverWrites (t ++ u) = driverWrites t ++ driverWrites u := by
  simp [driverWrites]

@[simp] theorem driverWrites_cons_call (sdk : Nat) (c : DriverCall R) (t : List (Event R)) :
    driverWrites (Event.call sdk c :: t) =
      if c.isWrite then (sdk, c) :: driverWrites t else driverWrites t := by
  cases h : c.isWrite <;> simp [driverWrites, h]

@[simp] theorem driverWrites_cons_log (level : Level) (msg : String) (t : List (Event R)) :
    driverWrites (Event.log level msg :: t) = driverWrites t := by
  simp [driverWrites]

variable (dbl : DoubleOps R) (drv : Monopod D R)

/-- The method `dofs` returns 1 and changes nothing. -/
@[simp] theorem Joint.dofs_apply (s : State D R) :
    (Joint.dofs : JointM D R Nat) s = (Except.ok 1, s) := rfl

@[simp] theorem Joint.name_apply (b : Bool) (s : State D R) :
    (Joint.name b : JointM D R String) s =
      (Except.ok (if b then s.pImpl.parentModelName ++ "::" ++ s.pImpl.name else s.pImpl.name),
        s) := by
  cases b <;> rfl

@[simp] theorem Joint.controlMode_apply (s : State D R) :
    (Joint.controlMode : JointM D R JointControlMode) s =
      (Except.ok s.pImpl.jointControlMode, s) := rfl

@[simp] theorem forDofs_one (body : Nat → JointM D R Unit) :
    forDofs 1 body = JointM.bind (JointM.pure ()) fun _ => body 0 := rfl

@[simp] theorem vecAt_cons_zero {α : Type} (x : α) (xs : List α) (s : State D R) :
    (vecAt (x :: xs) 0 : JointM D R α) s = (Except.ok x, s) := rfl

/-- On a bound joint `jointMaxGeneralizedForce` reads the driver once and returns one
element: the reported maximum, or zero when none is reported. -/
theorem Joint.jointMaxGeneralizedForce_apply (s : State D R) (sdk : Nat)
    (h : s.pImpl.monopod_sdk = some sdk) :
    Joint.jointMaxGeneralizedForce dbl drv s =
      (Except.ok [((drv.get_max_torque_target s.pImpl.monopodSdkIndex (s.heap sdk)).1).getD
          dbl.zero],
        { s with
          heap := Function.update s.heap sdk
            (drv.get_max_torque_target s.pImpl.monopodSdkIndex (s.heap sdk)).2,
          trace := s.trace ++
            [Event.call sdk (DriverCall.get_max_torque_target s.pImpl.monopodSdkIndex)] }) := by
  simp only [Joint.jointMaxGeneralizedForce, JointM.bind_apply, JointM.bind, getImpl_apply,
    callSdk_some _ _ s sdk h]
  cases (drv.get_max_torque_target s.pImpl.monopodSdkIndex (s.heap sdk)).1 <;> rfl

/-- On a bound joint in `Force` mode a one-element force vector is forwarded to the driver. -/
theorem Joint.setJointGeneralizedForceTarget_force (s : State D R) (sdk : Nat) (f : R)
    (hinit : s.pImpl.monopod_sdk = some sdk)
    (hmode : s.pImpl.jointControlMode = JointControlMode.Force) :
    Joint.setJointGeneralizedForceTarget dbl drv [f] s =
      (Except.ok (drv.set_torque_target f s.pImpl.monopodSdkIndex
          ((afterLimitCheck dbl drv s sdk f).heap sdk)).1,
        { afterLimitCheck dbl drv s sdk f with
          heap := Function.update (afterLimitCheck dbl drv s sdk f).heap sdk
            (drv.set_torque_target f s.pImpl.monopodSdkIndex
              ((afterLimitCheck dbl drv s sdk f).heap sdk)).2,
          trace := (afterLimitCheck dbl drv s sdk f).trace
            ++ [Event.call sdk (DriverCall.set_torque_target f s.pImpl.monopodSdkIndex)] }) := by
  cases hgt : dbl.gt (dbl.abs f)
      (((drv.get_max_torque_target s.pImpl.monopodSdkIndex (s.heap sdk)).1).getD dbl.zero) <;>
    simp [Joint.setJointGeneralizedForceTarget, JointM.bind,
      Joint.jointMaxGeneralizedForce_apply dbl drv s sdk hinit, forceLimitCheck, callSdk,
      afterLimitCheck, hgt, hmode, hinit]

/-- On a bound joint outside `Force` mode a one-element force vector is refused after the
maximum-force query and the messages. -/
theorem Joint.setJointGeneralizedForceTarget_refused (s : State D R) (sdk : Nat) (f : R)
    (hinit : s.pImpl.monopod_sdk = some sdk)
    (hmode : s.pImpl.jointControlMode ≠ JointControlMode.Force) :
    Joint.setJointGeneralizedForceTarget dbl drv [f] s =
      (Except.ok false,
        { afterLimitCheck dbl drv s sdk f with
          trace := (afterLimitCheck dbl drv s sdk f).trace
            ++ [Event.log Level.ERROR
                ("Joint, '" ++ s.pImpl.name ++ "' is not in force control mode.")] }) := by
  cases hgt : dbl.gt (dbl.abs f)
      (((drv.get_max_torque_target s.pImpl.monopodSdkIndex (s.heap sdk)).1).getD dbl.zero) <;>
    cases hm : s.pImpl.jointControlMode <;>
    simp_all [Joint.setJointGeneralizedForceTarget, JointM.bind,
      Joint.jointMaxGeneralizedForce_apply dbl drv s sdk hinit, forceLimitCheck, callSdk,
      afterLimitCheck]

/-- A force vector whose length is not 1 is refused before anything else happens. -/
theorem Joint.setJointGeneralizedForceTarget_size (s : State D R) (force : List R)
    (h : force.length ≠ 1) :
    Joint.setJointGeneralizedForceTarget dbl drv force s =
      (Except.ok false, { s with trace := s.trace ++ [Event.log Level.ERROR
          ("Wrong number of elements (joint_dofs=" ++ toString 1 ++ ")")] }) := by
  simp [Joint.setJointGeneralizedForceTarget, JointM.bind, h]

/-- Through a null driver pointer a one-element force vector faults at the maximum-force
query, before any state change. -/
theorem Joint.setJointGeneralizedForceTarget_unbound (s : State D R) (f : R)
    (hnull : s.pImpl.monopod_sdk = none) :
    Joint.setJointGeneralizedForceTarget dbl drv [f] s = (Except.error Exn.null_deref, s) := by
  simp [Joint.setJointGeneralizedForceTarget, JointM.bind, Joint.jointMaxGeneralizedForce,
    callSdk, hnull]

/-- Whatever the state and the force vector, `setJointGeneralizedForceTarget` leaves `pImpl`
as it was. -/
theorem Joint.setJointGeneralizedForceTarget_pImpl (s : State D R) (force : List R) :
    (Joint.setJointGeneralizedForceTarget dbl drv force s).2.pImpl = s.pImpl := by
  rcases force with _ | ⟨f, _ | ⟨g, rest⟩⟩
  · rw [Joint.setJointGeneralizedForceTarget_size dbl drv s [] (by simp)]
  · cases hsdk : s.pImpl.monopod_sdk with
    | none => rw [Joint.setJointGeneralizedForceTarget_unbound dbl drv s f hsdk]
    | some sdk =>
      by_cases hmode : s.pImpl.jointControlMode = JointControlMode.Force
      · rw [Joint.setJointGeneralizedForceTarget_force dbl drv s sdk f hsdk hmode]
        rfl
      · rw [Joint.setJointGeneralizedForceTarget_refused dbl drv s sdk f hsdk hmode]
        rfl
  · rw [Joint.setJointGeneralizedForceTarget_size dbl drv s (f :: g :: rest) (by simp)]

/-- Requesting `Force` records the mode, then commands a zero force; the outcome of that
command is discarded. -/
theorem Joint.setControlMode_force (s : State D R) :
    Joint.setControlMode dbl drv JointControlMode.Force s =
      match Joint.setJointGeneralizedForceTarget dbl drv [dbl.zero]
          { s with pImpl := { s.pImpl with jointControlMode := JointControlMode.Force } } with
      | (Except.ok _, s1) => (Except.ok true, s1)
      | (Except.error e, s1) => (Except.error e, s1) := by
  simp only [Joint.setControlMode, JointM.bind_apply, JointM.bind, modifyImpl_apply,
    Joint.dofs_apply, List.replicate_one]
  split <;> simp_all

/-- Requesting any mode other than `Force` only logs an error. -/
theorem Joint.setControlMode_other (s : State D R) (mode : JointControlMode)
    (h : mode ≠ JointControlMode.Force) :
    Joint.setControlMode dbl drv mode s =
      (Except.ok false,
        { s with trace := s.trace
            ++ [Event.log Level.ERROR "Only support force control mode."] }) := by
  cases mode <;> simp_all [Joint.setControlMode, JointM.bind]

/-- A vector whose length is not 1 is refused by `setJointMaxGeneralizedForce`. -/
theorem Joint.setJointMaxGeneralizedForce_size (s : State D R) (maxForce : List R)
    (h : maxForce.length ≠ 1) :
    Joint.setJointMaxGeneralizedForce drv maxForce s =
      (Except.ok false, { s with trace := s.trace ++ [Event.log Level.ERROR
          ("Wrong number of elements (joint_dofs=" ++ toString 1 ++ ")")] }) := by
  simp [Joint.setJointMaxGeneralizedForce, JointM.bind, h]

/-- On a bound joint a one-element vector is forwarded to `set_max_torque_target`. -/
theorem Joint.setJointMaxGeneralizedForce_apply (s : State D R) (sdk : Nat) (x : R)
    (hinit : s.pImpl.monopod_sdk = some sdk) :
    Joint.setJointMaxGeneralizedForce drv [x] s =
      (Except.ok (drv.set_max_torque_target x s.pImpl.monopodSdkIndex (s.heap sdk)).1,
        { s with
          heap := Function.update s.heap sdk
            (drv.set_max_torque_target x s.pImpl.monopodSdkIndex (s.heap sdk)).2,
          trace := s.trace ++
            [Event.call sdk
              (DriverCall.set_max_torque_target x s.pImpl.monopodSdkIndex)] }) := by
  simp [Joint.setJointMaxGeneralizedForce, JointM.bind, callSdk, hinit]

/-- When the driver reports a position, `jointPosition` returns it as a one-element
sequence. -/
theorem Joint.jointPosition_some (s : State D R) (sdk : Nat) (v : R)
    (hinit : s.pImpl.monopod_sdk = some sdk)
    (hv : (drv.get_position s.pImpl.monopodSdkIndex (s.heap sdk)).1 = some v) :
    Joint.jointPosition dbl drv s =
      (Except.ok [v],
        { s with
          heap := Function.update s.heap sdk
            (drv.get_position s.pImpl.monopodSdkIndex (s.heap sdk)).2,
          trace := s.trace
            ++ [Event.call sdk (DriverCall.get_position s.pImpl.monopodSdkIndex)]
            ++ [Event.log Level.INFO
                ("Getting position for joint, " ++ s.pImpl.name ++ " = "
                  ++ dbl.to_string v)] }) := by
  simp [Joint.jointPosition, JointM.bind, callSdk, hinit, hv, optValue]

/-- When the driver reports no position, `jointPosition` logs the size mismatch and then
throws at `data.value()`. -/
theorem Joint.jointPosition_none (s : State D R) (sdk : Nat)
    (hinit : s.pImpl.monopod_sdk = some sdk)
    (hv : (drv.get_position s.pImpl.monopodSdkIndex (s.heap sdk)).1 = none) :
    Joint.jointPosition dbl drv s =
      (Except.error Exn.bad_optional_access,
        { s with
          heap := Function.update s.heap sdk
            (drv.get_position s.pImpl.monopodSdkIndex (s.heap sdk)).2,
          trace := s.trace
            ++ [Event.call sdk (DriverCall.get_position s.pImpl.monopodSdkIndex)]
            ++ [Event.log Level.ERROR
                ("The size of velocity being set for the joint '" ++ s.pImpl.name
                  ++ "' does not match the joint's DOFs.")] }) := by
  simp [Joint.jointPosition, JointM.bind, callSdk, hinit, hv, optValue]

/-- The sibling getter `jointGeneralizedForceTarget` returns the empty sequence when the
driver reports nothing. -/
theorem Joint.jointGeneralizedForceTarget_apply (s : State D R) (sdk : Nat)
    (hinit : s.pImpl.monopod_sdk = some sdk) :
    (Joint.jointGeneralizedForceTarget drv s).1 =
      Except.ok ((drv.get_torque_target s.pImpl.monopodSdkIndex (s.heap sdk)).1).toList := by
  simp only [Joint.jointGeneralizedForceTarget, JointM.bind_apply, JointM.bind, getImpl_apply,
    callSdk_some _ _ s sdk hinit]
  cases (drv.get_torque_target s.pImpl.monopodSdkIndex (s.heap sdk)).1 <;> rfl

/-- The method `id` hashes the parent model name, `"::"`, and the scoped name. -/
theorem Joint.id_apply (hash : String → Nat) (s : State D R) :
    (Joint.id hash : JointM D R Nat) s =
      (Except.ok (hash (s.pImpl.parentModelName ++ "::"
          ++ (s.pImpl.parentModelName ++ "::" ++ s.pImpl.name)) % 2 ^ 64), s) := by
  simp [Joint.id, JointM.bind]

/-- Binding a joint to a driver object succeeds and stores the name, the index, the pointer
and the driver's model name. -/
theorem Joint.initialize_apply (s : State D R) (nm : String) (index : Int) (sdk : Nat) :
    Joint.initialize drv (nm, index) (some sdk) s =
      (Except.ok true,
        { pImpl :=
            { s.pImpl with
              name := nm, monopodSdkIndex := index, monopod_sdk := some sdk,
              parentModelName := (drv.get_model_name (s.heap sdk)).1 },
          heap := Function.update s.heap sdk (drv.get_model_name (s.heap sdk)).2,
          trace := s.trace ++ [Event.call sdk DriverCall.get_model_name] }) := by
  simp [ Joint.initialize, JointM.bind, callSdk]

end Rules

/-! ## Facts about the concrete scenario -/

section Scenario

theorem hipJoint_eq (d : SimDriver) :
    hipJoint d =
      { pImpl :=
          { jointControlMode := JointControlMode.Idle
            jointMaxGeneralizedForce := none
            parentModelName := "monopod"
            name := "hip"
            monopodSdkIndex := 3
            monopod_sdk := some 0 },
        heap := fun _ => d,
        trace := [Event.call 0 DriverCall.get_model_name] } := by
  simp [hipJoint, Joint.initialize_apply, Joint.ctor, Impl.make_unique, simMonopod]

theorem hipJoint_sdk (d : SimDriver) : (hipJoint d).pImpl.monopod_sdk = some 0 := by
  rw [hipJoint_eq]

theorem hipJoint_mode (d : SimDriver) :
    (hipJoint d).pImpl.jointControlMode = JointControlMode.Idle := by
  rw [hipJoint_eq]

theorem hipJointForce_pImpl (d : SimDriver) :
    (hipJointForce d).pImpl =
      { (hipJoint d).pImpl with jointControlMode := JointControlMode.Force } := by
  rw [hipJointForce, Joint.setControlMode_force]
  have h := Joint.setJointGeneralizedForceTarget_pImpl ratOps simMonopod
    { hipJoint d with
      pImpl := { (hipJoint d).pImpl with jointControlMode := JointControlMode.Force } }
    [ratOps.zero]
  split <;> simp_all

theorem hipJointForce_sdk (d : SimDriver) : (hipJointForce d).pImpl.monopod_sdk = some 0 := by
  rw [hipJointForce_pImpl, hipJoint_eq]

theorem hipJointForce_mode (d : SimDriver) :
    (hipJointForce d).pImpl.jointControlMode = JointControlMode.Force := by
  rw [hipJointForce_pImpl]

theorem hipJointForce_heap (d : SimDriver) :
    (hipJointForce d).heap 0 =
      (simMonopod.set_torque_target 0 3 (simMonopod.get_max_torque_target 3 d).2).2 := by
  rw [hipJointForce, Joint.setControlMode_force,
    Joint.setJointGeneralizedForceTarget_force ratOps simMonopod
      { hipJoint d with
        pImpl := { (hipJoint d).pImpl with jointControlMode := JointControlMode.Force } }
      0 ratOps.zero (hipJoint_sdk d) rfl]
  simp [afterLimitCheck, hipJoint_eq, ratOps]

end Scenario

/-! ## The force-target setter -/

section ForceTarget

variable {D R : Type} (dbl : DoubleOps R) (drv : Monopod D R)

/-- C1, as the code has it: on a bound joint whose control mode is not `Force`,
`setJointGeneralizedForceTarget` returns `false`, leaves the joint's data unchanged and
writes nothing to the driver (`set_torque_target` is not called); its only driver call is one
read `get_max_torque_target(index)`, made when the vector has length 1, and none otherwise. -/
theorem setJointGeneralizedForceTarget_not_force (s : State D R) (sdk : Nat) (force : List R)
    (hinit : s.pImpl.monopod_sdk = some sdk)
    (hmode : s.pImpl.jointControlMode ≠ JointControlMode.Force) :
    (Joint.setJointGeneralizedForceTarget dbl drv force s).1 = Except.ok false
    ∧ (Joint.setJointGeneralizedForceTarget dbl drv force s).2.pImpl = s.pImpl
    ∧ driverWrites (Joint.setJointGeneralizedForceTarget dbl drv force s).2.trace
        = driverWrites s.trace
    ∧ driverCalls (Joint.setJointGeneralizedForceTarget dbl drv force s).2.trace
        = driverCalls s.trace ++
          (if force.length = 1 then
            [(sdk, DriverCall.get_max_torque_target s.pImpl.monopodSdkIndex)]
          else []) := by
  rcases force with _ | ⟨f, _ | ⟨g, rest⟩⟩
  · rw [Joint.setJointGeneralizedForceTarget_size dbl drv s [] (by simp)]
    simp
  · rw [Joint.setJointGeneralizedForceTarget_refused dbl drv s sdk f hinit hmode]
    by_cases hgt : dbl.gt (dbl.abs f)
        (((drv.get_max_torque_target s.pImpl.monopodSdkIndex (s.heap sdk)).1).getD dbl.zero)
    · simp [afterLimitCheck, hgt, DriverCall.isWrite]
    · simp [afterLimitCheck, hgt, DriverCall.isWrite]
  · rw [Joint.setJointGeneralizedForceTarget_size dbl drv s (f :: g :: rest) (by simp)]
    simp

/-- C1 witness: the idle joint `hip` is offered the force `[10]`. -/
theorem setJointGeneralizedForceTarget_not_force_witness :
    (Joint.setJointGeneralizedForceTarget ratOps simMonopod [10] (hipJoint silentDriver)).1
        = Except.ok false
    ∧ (Joint.setJointGeneralizedForceTarget ratOps simMonopod [10]
          (hipJoint silentDriver)).2.pImpl = (hipJoint silentDriver).pImpl
    ∧ driverWrites (Joint.setJointGeneralizedForceTarget ratOps simMonopod [10]
          (hipJoint silentDriver)).2.trace
        = driverWrites (hipJoint silentDriver).trace
    ∧ driverCalls (Joint.setJointGeneralizedForceTarget ratOps simMonopod [10]
          (hipJoint silentDriver)).2.trace
        = driverCalls (hipJoint silentDriver).trace ++
          (if [(10 : ℚ)].length = 1 then
            [(0, DriverCall.get_max_torque_target
              (hipJoint silentDriver).pImpl.monopodSdkIndex)]
          else []) :=
  setJointGeneralizedForceTarget_not_force ratOps simMonopod (hipJoint silentDriver) 0 [10]
    (hipJoint_sdk _) (by rw [hipJoint_mode]; decide)

/-- C1 as stated fails: the idle joint `hip`, bound to index 3, is offered the force `[0]`;
the call returns `false` but has invoked the driver method `get_max_torque_target(3)`. -/
theorem setJointGeneralizedForceTarget_idle_queries_driver :
    (hipJoint silentDriver).pImpl.monopod_sdk = some 0
    ∧ (hipJoint silentDriver).pImpl.jointControlMode = JointControlMode.Idle
    ∧ driverCalls (hipJoint silentDriver).trace = [(0, DriverCall.get_model_name)]
    ∧ (Joint.setJointGeneralizedForceTarget ratOps simMonopod [0] (hipJoint silentDriver)).1
        = Except.ok false
    ∧ driverCalls (Joint.setJointGeneralizedForceTarget ratOps simMonopod [0]
          (hipJoint silentDriver)).2.trace
        = [(0, DriverCall.get_model_name), (0, DriverCall.get_max_torque_target 3)]
    ∧ driverCalls (Joint.setJointGeneralizedForceTarget ratOps simMonopod [0]
          (hipJoint silentDriver)).2.trace
        ≠ driverCalls (hipJoint silentDriver).trace := by
  have hmode : (hipJoint silentDriver).pImpl.jointControlMode ≠ JointControlMode.Force := by
    rw [hipJoint_mode]; decide
  rw [Joint.setJointGeneralizedForceTarget_refused ratOps simMonopod _ 0 0 (hipJoint_sdk _) hmode]
  refine ⟨hipJoint_sdk _, hipJoint_mode _, ?_, rfl, ?_, ?_⟩
  · simp [hipJoint_eq]
  · simp [afterLimitCheck, hipJoint_eq]
    split <;> simp
  · simp [afterLimitCheck, hipJoint_eq]

/-- C2: whatever the joint's state, a force vector whose length is not 1 (the value of
`dofs()`) makes `setJointGeneralizedForceTarget` return `false` normally, with no driver call
and with the joint's data and the driver objects unchanged. -/
theorem setJointGeneralizedForceTarget_wrong_length (s : State D R) (force : List R)
    (hlen : force.length ≠ 1) :
    (Joint.dofs s).1 = Except.ok 1
    ∧ (Joint.setJointGeneralizedForceTarget dbl drv force s).1 = Except.ok false
    ∧ driverCalls (Joint.setJointGeneralizedForceTarget dbl drv force s).2.trace
        = driverCalls s.trace
    ∧ (Joint.setJointGeneralizedForceTarget dbl drv force s).2.pImpl = s.pImpl
    ∧ (Joint.setJointGeneralizedForceTarget dbl drv force s).2.heap = s.heap := by
  rw [Joint.setJointGeneralizedForceTarget_size dbl drv s force hlen]
  simp

/-- C2 witness: the two-element vector `[1, 2]` offered to the joint `hip`. -/
theorem setJointGeneralizedForceTarget_wrong_length_witness :
    (Joint.dofs (hipJoint silentDriver)).1 = Except.ok 1
    ∧ (Joint.setJointGeneralizedForceTarget ratOps simMonopod [1, 2]
          (hipJoint silentDriver)).1 = Except.ok false
    ∧ driverCalls (Joint.setJointGeneralizedForceTarget ratOps simMonopod [1, 2]
          (hipJoint silentDriver)).2.trace
        = driverCalls (hipJoint silentDriver).trace
    ∧ (Joint.setJointGeneralizedForceTarget ratOps simMonopod [1, 2]
          (hipJoint silentDriver)).2.pImpl = (hipJoint silentDriver).pImpl
    ∧ (Joint.setJointGeneralizedForceTarget ratOps simMonopod [1, 2]
          (hipJoint silentDriver)).2.heap = (hipJoint silentDriver).heap :=
  setJointGeneralizedForceTarget_wrong_length ratOps simMonopod (hipJoint silentDriver)
    [1, 2] (by decide)

end ForceTarget

/-! ## The control mode -/

section ControlMode

variable {D R : Type} (dbl : DoubleOps R) (drv : Monopod D R)

/-- C3: on a bound joint in any control mode, `setControlMode(Force)` returns `true`, a
following `controlMode()` returns `Force`, and the call writes to the driver exactly once:
`set_torque_target(0, index)` at the joint's index, after one read of the maximum torque.
The write reaches the driver: the driver object is left in the state that its
`set_torque_target(0, index)` produces from the state after the read, every other driver
object is untouched, and of the joint's data only the control mode changes. -/
theorem setControlMode_force_zero_write (s : State D R) (sdk : Nat)
    (hinit : s.pImpl.monopod_sdk = some sdk) :
    (Joint.setControlMode dbl drv JointControlMode.Force s).1 = Except.ok true
    ∧ (Joint.controlMode (Joint.setControlMode dbl drv JointControlMode.Force s).2).1
        = Except.ok JointControlMode.Force
    ∧ driverWrites (Joint.setControlMode dbl drv JointControlMode.Force s).2.trace
        = driverWrites s.trace
          ++ [(sdk, DriverCall.set_torque_target dbl.zero s.pImpl.monopodSdkIndex)]
    ∧ driverCalls (Joint.setControlMode dbl drv JointControlMode.Force s).2.trace
        = driverCalls s.trace
          ++ [(sdk, DriverCall.get_max_torque_target s.pImpl.monopodSdkIndex),
              (sdk, DriverCall.set_torque_target dbl.zero s.pImpl.monopodSdkIndex)]
    ∧ (Joint.setControlMode dbl drv JointControlMode.Force s).2.heap
        = Function.update s.heap sdk
            (drv.set_torque_target dbl.zero s.pImpl.monopodSdkIndex
              (drv.get_max_torque_target s.pImpl.monopodSdkIndex (s.heap sdk)).2).2
    ∧ (Joint.setControlMode dbl drv JointControlMode.Force s).2.pImpl
        = { s.pImpl with jointControlMode := JointControlMode.Force } := by
  rw [Joint.setControlMode_force,
    Joint.setJointGeneralizedForceTarget_force dbl drv
      { s with pImpl := { s.pImpl with jointControlMode := JointControlMode.Force } }
      sdk dbl.zero hinit rfl]
  by_cases hgt : dbl.gt (dbl.abs dbl.zero)
      (((drv.get_max_torque_target s.pImpl.monopodSdkIndex (s.heap sdk)).1).getD dbl.zero)
  · simp [afterLimitCheck, hgt, DriverCall.isWrite]
  · simp [afterLimitCheck, hgt, DriverCall.isWrite]

/-- C3 witness: the idle joint `hip` is put in `Force` mode; its simulated driver, which held
no torque target, then holds the target 0. -/
theorem setControlMode_force_zero_write_witness :
    ((hipJoint silentDriver).pImpl.jointControlMode = JointControlMode.Idle
      ∧ ((hipJoint silentDriver).heap 0).torque_target = none
      ∧ ((Joint.setControlMode ratOps simMonopod JointControlMode.Force
          (hipJoint silentDriver)).2.heap 0).torque_target = some 0)
    ∧ (Joint.setControlMode ratOps simMonopod JointControlMode.Force
        (hipJoint silentDriver)).1 = Except.ok true
    ∧ (Joint.controlMode (Joint.setControlMode ratOps simMonopod JointControlMode.Force
        (hipJoint silentDriver)).2).1 = Except.ok JointControlMode.Force
    ∧ driverWrites (Joint.setControlMode ratOps simMonopod JointControlMode.Force
        (hipJoint silentDriver)).2.trace
        = driverWrites (hipJoint silentDriver).trace
          ++ [(0, DriverCall.set_torque_target ratOps.zero
                (hipJoint silentDriver).pImpl.monopodSdkIndex)]
    ∧ driverCalls (Joint.setControlMode ratOps simMonopod JointControlMode.Force
        (hipJoint silentDriver)).2.trace
        = driverCalls (hipJoint silentDriver).trace
          ++ [(0, DriverCall.get_max_torque_target
                (hipJoint silentDriver).pImpl.monopodSdkIndex),
              (0, DriverCall.set_torque_target ratOps.zero
                (hipJoint silentDriver).pImpl.monopodSdkIndex)]
    ∧ (Joint.setControlMode ratOps simMonopod JointControlMode.Force
        (hipJoint silentDriver)).2.heap
        = Function.update (hipJoint silentDriver).heap 0
            (simMonopod.set_torque_target ratOps.zero
              (hipJoint silentDriver).pImpl.monopodSdkIndex
              (simMonopod.get_max_torque_target (hipJoint silentDriver).pImpl.monopodSdkIndex
                ((hipJoint silentDriver).heap 0)).2).2
    ∧ (Joint.setControlMode ratOps simMonopod JointControlMode.Force
        (hipJoint silentDriver)).2.pImpl
        = { (hipJoint silentDriver).pImpl with
            jointControlMode := JointControlMode.Force } :=
  ⟨⟨hipJoint_mode _,
      by simp [hipJoint_eq, simDriver, silentDriver],
      by
        have h := hipJointForce_heap silentDriver
        rw [hipJointForce] at h
        rw [h]
        simp [simMonopod, simDriver, silentDriver]⟩,
    setControlMode_force_zero_write ratOps simMonopod (hipJoint silentDriver) 0
      (hipJoint_sdk _)⟩

/-- C4: whatever the joint's state, `setControlMode(m)` with `m` other than `Force` returns
`false`, `controlMode()` answers afterwards what it answered before, and no driver method is
called. -/
theorem setControlMode_rejects_other (s : State D R) (m : JointControlMode)
    (hm : m ≠ JointControlMode.Force) :
    (Joint.setControlMode dbl drv m s).1 = Except.ok false
    ∧ (Joint.controlMode (Joint.setControlMode dbl drv m s).2).1 = (Joint.controlMode s).1
    ∧ driverCalls (Joint.setControlMode dbl drv m s).2.trace = driverCalls s.trace
    ∧ (Joint.setControlMode dbl drv m s).2.pImpl = s.pImpl
    ∧ (Joint.setControlMode dbl drv m s).2.heap = s.heap := by
  rw [Joint.setControlMode_other dbl drv s m hm]
  simp

/-- C4 witness: the joint `hip` is asked for `Position` control. -/
theorem setControlMode_rejects_other_witness :
    (Joint.setControlMode ratOps simMonopod JointControlMode.Position
        (hipJoint silentDriver)).1 = Except.ok false
    ∧ (Joint.controlMode (Joint.setControlMode ratOps simMonopod JointControlMode.Position
        (hipJoint silentDriver)).2).1 = (Joint.controlMode (hipJoint silentDriver)).1
    ∧ driverCalls (Joint.setControlMode ratOps simMonopod JointControlMode.Position
        (hipJoint silentDriver)).2.trace = driverCalls (hipJoint silentDriver).trace
    ∧ (Joint.setControlMode ratOps simMonopod JointControlMode.Position
        (hipJoint silentDriver)).2.pImpl = (hipJoint silentDriver).pImpl
    ∧ (Joint.setControlMode ratOps simMonopod JointControlMode.Position
        (hipJoint silentDriver)).2.heap = (hipJoint silentDriver).heap :=
  setControlMode_rejects_other ratOps simMonopod (hipJoint silentDriver)
    JointControlMode.Position (by decide)

end ControlMode

/-! ## Identity -/

section Identity

variable {D R : Type}

/-- C5, as the code has it: `id()` is the string hash of
`P ++ "::" ++ P ++ "::" ++ N`, that is of `P ++ "::"` followed by the string that
`name(scoped=true)` returns; the parent model name `P` occurs twice in the hashed string. -/
theorem id_hashes_parent_and_scoped_name (hash : String → Nat) (s : State D R) :
    (Joint.name true s).1 = Except.ok (s.pImpl.parentModelName ++ "::" ++ s.pImpl.name)
    ∧ (Joint.id hash s).1 =
        Except.ok (hash (s.pImpl.parentModelName ++ "::"
          ++ (s.pImpl.parentModelName ++ "::" ++ s.pImpl.name)) % 2 ^ 64)
    ∧ (Joint.id hash s).2 = s := by
  rw [Joint.id_apply]
  simp

/-- C5 as stated fails: for the joint `hip` of the model `monopod`, with the string length as
the hash, `id()` is 21, the hash of `monopod::monopod::hip`, while the hash of the scoped name
`monopod::hip` is 12. -/
theorem id_not_hash_of_scoped_name :
    (hipJoint silentDriver).pImpl.parentModelName = "monopod"
    ∧ (hipJoint silentDriver).pImpl.name = "hip"
    ∧ (Joint.name true (hipJoint silentDriver)).1 = Except.ok "monopod::hip"
    ∧ (Joint.id String.length (hipJoint silentDriver)).1 = Except.ok 21
    ∧ String.length ("monopod" ++ "::" ++ "hip") % 2 ^ 64 = 12
    ∧ (Joint.id String.length (hipJoint silentDriver)).1
        ≠ Except.ok (String.length ((hipJoint silentDriver).pImpl.parentModelName ++ "::"
            ++ (hipJoint silentDriver).pImpl.name) % 2 ^ 64) := by
  rw [Joint.id_apply, hipJoint_eq]
  refine ⟨rfl, rfl, ?_, ?_, ?_, ?_⟩
  · rw [Joint.name_apply]; rfl
  · simp only [Prod.fst, Except.ok.injEq]; decide
  · decide
  · simp only [Prod.fst, ne_eq, Except.ok.injEq]; decide

end Identity

/-! ## Reading the position -/

section Position

/-- C6 at the scenario of the specification, on the joint `hip` bound to index 3: when the
driver reports the position 0.42, `jointPosition()` returns `[0.42]`; when the driver reports
no value, `jointPosition()` does not return the empty sequence but ends with the exception
`std::bad_optional_access`, thrown by `data.value()` in its last log statement, after one
driver read and the size-mismatch error message.  The sibling getter
`jointGeneralizedForceTarget()`, which has no such statement, returns the empty sequence. -/
theorem jointPosition_absent_reading_throws :
    (Joint.jointPosition ratOps simMonopod (hipJoint reportingDriver)).1
        = Except.ok [0.42]
    ∧ (simMonopod.get_position 3 silentDriver).1 = none
    ∧ (Joint.jointPosition ratOps simMonopod (hipJoint silentDriver)).1
        = Except.error Exn.bad_optional_access
    ∧ (Joint.jointPosition ratOps simMonopod (hipJoint silentDriver)).2.trace
        = [Event.call 0 DriverCall.get_model_name,
           Event.call 0 (DriverCall.get_position 3),
           Event.log Level.ERROR
             "The size of velocity being set for the joint 'hip' does not match the joint's DOFs."]
    ∧ (Joint.jointGeneralizedForceTarget simMonopod (hipJoint silentDriver)).1
        = Except.ok [] := by
  refine ⟨?_, rfl, ?_, ?_, ?_⟩
  · rw [Joint.jointPosition_some ratOps simMonopod _ 0 0.42 (hipJoint_sdk _)
      (by simp [hipJoint_eq, simMonopod, simDriver, silentDriver, reportingDriver])]
  · rw [Joint.jointPosition_none ratOps simMonopod _ 0 (hipJoint_sdk _)
      (by simp [hipJoint_eq, simMonopod, simDriver, silentDriver, reportingDriver])]
  · rw [Joint.jointPosition_none ratOps simMonopod _ 0 (hipJoint_sdk _)
      (by simp [hipJoint_eq, simMonopod, simDriver, silentDriver, reportingDriver])]
    simp [hipJoint_eq]
  · rw [Joint.jointGeneralizedForceTarget_apply simMonopod _ 0 (hipJoint_sdk _)]
    simp [hipJoint_eq, simMonopod, simDriver, silentDriver, reportingDriver]

end Position

/-! ## The maximum force -/

section MaxForce

variable {D R : Type} (dbl : DoubleOps R) (drv : Monopod D R)

/-- C7: on a bound joint in any control mode, `setJointMaxGeneralizedForce([x])` calls the
driver once, `set_max_torque_target(x, index)` with `x` as given, and returns the boolean
that call returned; a vector of any other length makes it return `false` with no driver
call. -/
theorem setJointMaxGeneralizedForce_forwards (s : State D R) (sdk : Nat) (x : R)
    (maxForce : List R) (hinit : s.pImpl.monopod_sdk = some sdk)
    (hlen : maxForce.length ≠ 1) :
    ((Joint.setJointMaxGeneralizedForce drv [x] s).1
        = Except.ok (drv.set_max_torque_target x s.pImpl.monopodSdkIndex (s.heap sdk)).1
      ∧ driverCalls (Joint.setJointMaxGeneralizedForce drv [x] s).2.trace
          = driverCalls s.trace
            ++ [(sdk, DriverCall.set_max_torque_target x s.pImpl.monopodSdkIndex)]
      ∧ (Joint.setJointMaxGeneralizedForce drv [x] s).2.heap sdk
          = (drv.set_max_torque_target x s.pImpl.monopodSdkIndex (s.heap sdk)).2
      ∧ (Joint.setJointMaxGeneralizedForce drv [x] s).2.pImpl = s.pImpl)
    ∧ ((Joint.setJointMaxGeneralizedForce drv maxForce s).1 = Except.ok false
      ∧ driverCalls (Joint.setJointMaxGeneralizedForce drv maxForce s).2.trace
          = driverCalls s.trace
      ∧ (Joint.setJointMaxGeneralizedForce drv maxForce s).2.heap = s.heap
      ∧ (Joint.setJointMaxGeneralizedForce drv maxForce s).2.pImpl = s.pImpl) := by
  constructor
  · rw [Joint.setJointMaxGeneralizedForce_apply drv s sdk x hinit]
    simp
  · rw [Joint.setJointMaxGeneralizedForce_size drv s maxForce hlen]
    simp

/-- C7 witness: the joint `hip`, bound to index 3, is given the maximum force `[5]`, and then
the empty vector. -/
theorem setJointMaxGeneralizedForce_forwards_witness :
    ((Joint.setJointMaxGeneralizedForce simMonopod [5] (hipJoint silentDriver)).1
        = Except.ok (simMonopod.set_max_torque_target 5
            (hipJoint silentDriver).pImpl.monopodSdkIndex ((hipJoint silentDriver).heap 0)).1
      ∧ driverCalls (Joint.setJointMaxGeneralizedForce simMonopod [5]
            (hipJoint silentDriver)).2.trace
          = driverCalls (hipJoint silentDriver).trace
            ++ [(0, DriverCall.set_max_torque_target 5
                  (hipJoint silentDriver).pImpl.monopodSdkIndex)]
      ∧ (Joint.setJointMaxGeneralizedForce simMonopod [5] (hipJoint silentDriver)).2.heap 0
          = (simMonopod.set_max_torque_target 5
              (hipJoint silentDriver).pImpl.monopodSdkIndex ((hipJoint silentDriver).heap 0)).2
      ∧ (Joint.setJointMaxGeneralizedForce simMonopod [5] (hipJoint silentDriver)).2.pImpl
          = (hipJoint silentDriver).pImpl)
    ∧ ((Joint.setJointMaxGeneralizedForce simMonopod [] (hipJoint silentDriver)).1
          = Except.ok false
      ∧ driverCalls (Joint.setJointMaxGeneralizedForce simMonopod []
            (hipJoint silentDriver)).2.trace
          = driverCalls (hipJoint silentDriver).trace
      ∧ (Joint.setJointMaxGeneralizedForce simMonopod [] (hipJoint silentDriver)).2.heap
          = (hipJoint silentDriver).heap
      ∧ (Joint.setJointMaxGeneralizedForce simMonopod [] (hipJoint silentDriver)).2.pImpl
          = (hipJoint silentDriver).pImpl) :=
  setJointMaxGeneralizedForce_forwards simMonopod (hipJoint silentDriver) 0 5 []
    (hipJoint_sdk _) (by decide)

/-- C8: on a bound joint `jointMaxGeneralizedForce()` returns a sequence of length 1, the
value of `dofs()`: `[v]` when the driver's `get_max_torque_target(index)` yields `v`, `[0]`
when it yields nothing; and `setJointGeneralizedForceTarget` returns normally for every force
vector, so its subscripts `force[dof]` and `maxForce[dof]` are never out of range. -/
theorem jointMaxGeneralizedForce_one_element (s : State D R) (sdk : Nat) (force : List R)
    (hinit : s.pImpl.monopod_sdk = some sdk) :
    (∃ l : List R, (Joint.jointMaxGeneralizedForce dbl drv s).1 = Except.ok l
      ∧ l.length = 1 ∧ (Joint.dofs s).1 = Except.ok l.length)
    ∧ (∀ v : R,
        (drv.get_max_torque_target s.pImpl.monopodSdkIndex (s.heap sdk)).1 = some v →
        (Joint.jointMaxGeneralizedForce dbl drv s).1 = Except.ok [v])
    ∧ ((drv.get_max_torque_target s.pImpl.monopodSdkIndex (s.heap sdk)).1 = none →
        (Joint.jointMaxGeneralizedForce dbl drv s).1 = Except.ok [dbl.zero])
    ∧ (∃ b : Bool, (Joint.setJointGeneralizedForceTarget dbl drv force s).1 = Except.ok b) := by
  rw [Joint.jointMaxGeneralizedForce_apply dbl drv s sdk hinit]
  refine ⟨⟨_, rfl, rfl, rfl⟩, ?_, ?_, ?_⟩
  · intro v hv
    simp [hv]
  · intro hv
    simp [hv]
  · rcases force with _ | ⟨f, _ | ⟨g, rest⟩⟩
    · exact ⟨false, by rw [Joint.setJointGeneralizedForceTarget_size dbl drv s [] (by simp)]⟩
    · by_cases hmode : s.pImpl.jointControlMode = JointControlMode.Force
      · exact ⟨_,
          by rw [Joint.setJointGeneralizedForceTarget_force dbl drv s sdk f hinit hmode]⟩
      · exact ⟨false,
          by rw [Joint.setJointGeneralizedForceTarget_refused dbl drv s sdk f hinit hmode]⟩
    · exact ⟨false,
        by rw [Joint.setJointGeneralizedForceTarget_size dbl drv s (f :: g :: rest) (by simp)]⟩

/-- C8 witness: the joint `hip` on a driver reporting the maximum torque 5 answers `[5]`, on a
driver reporting none it answers `[0]`; the force vector offered is `[7]`. -/
theorem jointMaxGeneralizedForce_one_element_witness :
    (Joint.jointMaxGeneralizedForce ratOps simMonopod (hipJoint silentDriver)).1
        = Except.ok [5]
    ∧ (Joint.jointMaxGeneralizedForce ratOps simMonopod (hipJoint unlimitedDriver)).1
        = Except.ok [0]
    ∧ (∃ b : Bool, (Joint.setJointGeneralizedForceTarget ratOps simMonopod [7]
        (hipJoint silentDriver)).1 = Except.ok b) :=
  ⟨(jointMaxGeneralizedForce_one_element ratOps simMonopod (hipJoint silentDriver) 0 [7]
      (hipJoint_sdk _)).2.1 5 (by simp [hipJoint_eq, simMonopod, simDriver, silentDriver]),
    (jointMaxGeneralizedForce_one_element ratOps simMonopod (hipJoint unlimitedDriver) 0 [7]
      (hipJoint_sdk _)).2.2.1 (by simp [hipJoint_eq, simMonopod, simDriver, unlimitedDriver]),
    (jointMaxGeneralizedForce_one_element ratOps simMonopod (hipJoint silentDriver) 0 [7]
      (hipJoint_sdk _)).2.2.2⟩

/-- C9: on a bound joint in `Force` mode, `setJointGeneralizedForceTarget([f])` writes
`set_torque_target(f, index)` exactly once, with `f` as given whatever the maximum force the
driver reports, and returns the boolean that write returned. -/
theorem setJointGeneralizedForceTarget_forwards (s : State D R) (sdk : Nat) (f : R)
    (hinit : s.pImpl.monopod_sdk = some sdk)
    (hmode : s.pImpl.jointControlMode = JointControlMode.Force) :
    (Joint.setJointGeneralizedForceTarget dbl drv [f] s).1
        = Except.ok (drv.set_torque_target f s.pImpl.monopodSdkIndex
            (drv.get_max_torque_target s.pImpl.monopodSdkIndex (s.heap sdk)).2).1
    ∧ driverWrites (Joint.setJointGeneralizedForceTarget dbl drv [f] s).2.trace
        = driverWrites s.trace
          ++ [(sdk, DriverCall.set_torque_target f s.pImpl.monopodSdkIndex)]
    ∧ driverCalls (Joint.setJointGeneralizedForceTarget dbl drv [f] s).2.trace
        = driverCalls s.trace
          ++ [(sdk, DriverCall.get_max_torque_target s.pImpl.monopodSdkIndex),
              (sdk, DriverCall.set_torque_target f s.pImpl.monopodSdkIndex)]
    ∧ (Joint.setJointGeneralizedForceTarget dbl drv [f] s).2.heap sdk
        = (drv.set_torque_target f s.pImpl.monopodSdkIndex
            (drv.get_max_torque_target s.pImpl.monopodSdkIndex (s.heap sdk)).2).2
    ∧ (Joint.setJointGeneralizedForceTarget dbl drv [f] s).2.pImpl = s.pImpl := by
  rw [Joint.setJointGeneralizedForceTarget_force dbl drv s sdk f hinit hmode]
  by_cases hgt : dbl.gt (dbl.abs f)
      (((drv.get_max_torque_target s.pImpl.monopodSdkIndex (s.heap sdk)).1).getD dbl.zero)
  · simp [afterLimitCheck, hgt, DriverCall.isWrite]
  · simp [afterLimitCheck, hgt, DriverCall.isWrite]

/-- C9 witness: the joint `hip` in `Force` mode, whose driver reports the maximum torque 5,
is commanded the force `[10]`. -/
theorem setJointGeneralizedForceTarget_forwards_witness :
    ((simMonopod.get_max_torque_target 3 ((hipJointForce silentDriver).heap 0)).1 = some 5
      ∧ ratOps.gt (ratOps.abs 10) 5 = true)
    ∧ (Joint.setJointGeneralizedForceTarget ratOps simMonopod [10]
          (hipJointForce silentDriver)).1
        = Except.ok (simMonopod.set_torque_target 10
            (hipJointForce silentDriver).pImpl.monopodSdkIndex
            (simMonopod.get_max_torque_target (hipJointForce silentDriver).pImpl.monopodSdkIndex
              ((hipJointForce silentDriver).heap 0)).2).1
    ∧ driverWrites (Joint.setJointGeneralizedForceTarget ratOps simMonopod [10]
          (hipJointForce silentDriver)).2.trace
        = driverWrites (hipJointForce silentDriver).trace
          ++ [(0, DriverCall.set_torque_target 10
                (hipJointForce silentDriver).pImpl.monopodSdkIndex)]
    ∧ driverCalls (Joint.setJointGeneralizedForceTarget ratOps simMonopod [10]
          (hipJointForce silentDriver)).2.trace
        = driverCalls (hipJointForce silentDriver).trace
          ++ [(0, DriverCall.get_max_torque_target
                (hipJointForce silentDriver).pImpl.monopodSdkIndex),
              (0, DriverCall.set_torque_target 10
                (hipJointForce silentDriver).pImpl.monopodSdkIndex)]
    ∧ (Joint.setJointGeneralizedForceTarget ratOps simMonopod [10]
          (hipJointForce silentDriver)).2.heap 0
        = (simMonopod.set_torque_target 10 (hipJointForce silentDriver).pImpl.monopodSdkIndex
            (simMonopod.get_max_torque_target (hipJointForce silentDriver).pImpl.monopodSdkIndex
              ((hipJointForce silentDriver).heap 0)).2).2
    ∧ (Joint.setJointGeneralizedForceTarget ratOps simMonopod [10]
          (hipJointForce silentDriver)).2.pImpl = (hipJointForce silentDriver).pImpl :=
  ⟨⟨by simp [hipJointForce_heap, simMonopod, simDriver, silentDriver],
      by simp [ratOps]; norm_num⟩,
    setJointGeneralizedForceTarget_forwards ratOps simMonopod (hipJointForce silentDriver) 0 10
      (hipJointForce_sdk _) (hipJointForce_mode _)⟩

end MaxForce

/-! ## The control-mode state machine -/

section StateMachine

variable {D R : Type} (dbl : DoubleOps R) (drv : Monopod D R) (hash : String → Nat)

theorem callSdk_pImpl {β : Type} (c : DriverCall R) (method : D → β × D) (s : State D R) :
    (callSdk c method s).2.pImpl = s.pImpl := by
  cases hsdk : s.pImpl.monopod_sdk <;> simp [callSdk, hsdk]

theorem Joint.initialize_mode (s : State D R) (nameIndexPair : String × Int)
    (monopod_sdk : Option Nat) :
    ( Joint.initialize drv nameIndexPair monopod_sdk s).2.pImpl.jointControlMode
      = s.pImpl.jointControlMode := by
  cases monopod_sdk <;> simp [ Joint.initialize, JointM.bind, callSdk]

theorem Joint.jointPosition_pImpl (s : State D R) :
    (Joint.jointPosition dbl drv s).2.pImpl = s.pImpl := by
  cases hsdk : s.pImpl.monopod_sdk with
  | none => simp [Joint.jointPosition, JointM.bind, callSdk, hsdk]
  | some sdk =>
    cases hv : (drv.get_position s.pImpl.monopodSdkIndex (s.heap sdk)).1 <;>
      simp [Joint.jointPosition, JointM.bind, callSdk, hsdk, hv, optValue]

theorem Joint.jointVelocity_pImpl (s : State D R) :
    (Joint.jointVelocity dbl drv s).2.pImpl = s.pImpl := by
  cases hsdk : s.pImpl.monopod_sdk with
  | none => simp [Joint.jointVelocity, JointM.bind, callSdk, hsdk]
  | some sdk =>
    cases hv : (drv.get_velocity s.pImpl.monopodSdkIndex (s.heap sdk)).1 <;>
      simp [Joint.jointVelocity, JointM.bind, callSdk, hsdk, hv, optValue]

theorem Joint.jointAcceleration_pImpl (s : State D R) :
    (Joint.jointAcceleration dbl drv s).2.pImpl = s.pImpl := by
  cases hsdk : s.pImpl.monopod_sdk with
  | none => simp [Joint.jointAcceleration, JointM.bind, callSdk, hsdk]
  | some sdk =>
    cases hv : (drv.get_acceleration s.pImpl.monopodSdkIndex (s.heap sdk)).1 <;>
      simp [Joint.jointAcceleration, JointM.bind, callSdk, hsdk, hv, optValue]

theorem Joint.jointGeneralizedForceTarget_pImpl (s : State D R) :
    (Joint.jointGeneralizedForceTarget drv s).2.pImpl = s.pImpl := by
  cases hsdk : s.pImpl.monopod_sdk with
  | none => simp [Joint.jointGeneralizedForceTarget, JointM.bind, callSdk, hsdk]
  | some sdk =>
    cases hv : (drv.get_torque_target s.pImpl.monopodSdkIndex (s.heap sdk)).1 <;>
      simp [Joint.jointGeneralizedForceTarget, JointM.bind, callSdk, hsdk, hv]

theorem Joint.jointMaxGeneralizedForce_pImpl (s : State D R) :
    (Joint.jointMaxGeneralizedForce dbl drv s).2.pImpl = s.pImpl := by
  cases hsdk : s.pImpl.monopod_sdk with
  | none => simp [Joint.jointMaxGeneralizedForce, JointM.bind, callSdk, hsdk]
  | some sdk => rw [Joint.jointMaxGeneralizedForce_apply dbl drv s sdk hsdk]

theorem Joint.setJointMaxGeneralizedForce_pImpl (s : State D R) (maxForce : List R) :
    (Joint.setJointMaxGeneralizedForce drv maxForce s).2.pImpl = s.pImpl := by
  rcases maxForce with _ | ⟨x, _ | ⟨y, rest⟩⟩
  · rw [Joint.setJointMaxGeneralizedForce_size drv s [] (by simp)]
  · cases hsdk : s.pImpl.monopod_sdk with
    | none => simp [Joint.setJointMaxGeneralizedForce, JointM.bind, callSdk, hsdk]
    | some sdk => rw [Joint.setJointMaxGeneralizedForce_apply drv s sdk x hsdk]
  · rw [Joint.setJointMaxGeneralizedForce_size drv s (x :: y :: rest) (by simp)]

theorem Joint.pid_pImpl (s : State D R) : (Joint.pid dbl drv s).2.pImpl = s.pImpl := by
  cases hsdk : s.pImpl.monopod_sdk with
  | none => simp [Joint.pid, JointM.bind, callSdk, hsdk]
  | some sdk =>
    cases hv : (drv.get_pid s.pImpl.monopodSdkIndex (s.heap sdk)).1 <;>
      simp [Joint.pid, JointM.bind, callSdk, hsdk, hv]

theorem Joint.setPID_pImpl (s : State D R) (pid : PID R) :
    (Joint.setPID drv pid s).2.pImpl = s.pImpl := by
  simp only [Joint.setPID, JointM.bind_apply, JointM.bind, getImpl_apply]
  exact callSdk_pImpl _ _ s

/-- Requesting `Force` leaves the joint in `Force` mode, whether or not the zero-force command
that follows succeeds. -/
theorem Joint.setControlMode_force_mode (s : State D R) :
    (Joint.setControlMode dbl drv JointControlMode.Force s).2.pImpl.jointControlMode
      = JointControlMode.Force := by
  have h := Joint.setJointGeneralizedForceTarget_pImpl dbl drv
    { s with pImpl := { s.pImpl with jointControlMode := JointControlMode.Force } } [dbl.zero]
  rw [Joint.setControlMode_force]
  split <;> simp_all

/-- Every call other than `setControlMode(Force)` leaves the control mode as it was. -/
theorem step_mode_other (c : Call R) (s : State D R)
    (hc : c ≠ Call.setControlMode JointControlMode.Force) :
    (step dbl drv hash c s).pImpl.jointControlMode = s.pImpl.jointControlMode := by
  cases c with
  | id => simp [step, Joint.id_apply]
  | init nameIndexPair monopod_sdk => exact Joint.initialize_mode drv s nameIndexPair monopod_sdk
  | valid => rfl
  | type => rfl
  | dofs => rfl
  | name scoped_ => simp [step]
  | setControlMode mode =>
    have hm : mode ≠ JointControlMode.Force := fun h => hc (by rw [h])
    simp [step, Joint.setControlMode_other dbl drv s mode hm]
  | controlMode => rfl
  | jointPosition => simp [step, Joint.jointPosition_pImpl]
  | jointVelocity => simp [step, Joint.jointVelocity_pImpl]
  | jointAcceleration => simp [step, Joint.jointAcceleration_pImpl]
  | jointGeneralizedForceTarget => simp [step, Joint.jointGeneralizedForceTarget_pImpl]
  | setJointGeneralizedForceTarget force =>
    simp [step, Joint.setJointGeneralizedForceTarget_pImpl]
  | jointMaxGeneralizedForce => simp [step, Joint.jointMaxGeneralizedForce_pImpl]
  | setJointMaxGeneralizedForce maxForce => simp [step, Joint.setJointMaxGeneralizedForce_pImpl]
  | pid => simp [step, Joint.pid_pImpl]
  | setPID pid => simp [step, Joint.setPID_pImpl]

/-- The call `setControlMode(Force)` leaves the control mode at `Force`. -/
theorem step_mode_force (s : State D R) :
    (step dbl drv hash (Call.setControlMode JointControlMode.Force) s).pImpl.jointControlMode
      = JointControlMode.Force :=
  Joint.setControlMode_force_mode dbl drv s

/-- Once in `Force` mode, always in `Force` mode. -/
theorem run_mode_force (cs : List (Call R)) (s : State D R)
    (h : s.pImpl.jointControlMode = JointControlMode.Force) :
    (run dbl drv hash cs s).pImpl.jointControlMode = JointControlMode.Force := by
  induction cs generalizing s with
  | nil => exact h
  | cons c cs ih =>
    apply ih
    by_cases hc : c = Call.setControlMode JointControlMode.Force
    · rw [hc]; exact step_mode_force dbl drv hash s
    · rw [step_mode_other dbl drv hash c s hc]; exact h

/-- A sequence of calls without `setControlMode(Force)` leaves the control mode as it was. -/
theorem run_mode_other (cs : List (Call R)) (s : State D R)
    (h : Call.setControlMode JointControlMode.Force ∉ cs) :
    (run dbl drv hash cs s).pImpl.jointControlMode = s.pImpl.jointControlMode := by
  induction cs generalizing s with
  | nil => rfl
  | cons c cs ih =>
    have hc : c ≠ Call.setControlMode JointControlMode.Force := fun e =>
      h (by rw [e]; exact List.mem_cons_self _ _)
    have hcs : Call.setControlMode JointControlMode.Force ∉ cs := fun m =>
      h (List.mem_cons_of_mem _ m)
    show (run dbl drv hash cs (step dbl drv hash c s)).pImpl.jointControlMode = _
    rw [ih _ hcs, step_mode_other dbl drv hash c s hc]

/-- A sequence of calls containing `setControlMode(Force)` ends in `Force` mode. -/
theorem run_mode_mem (cs : List (Call R)) (s : State D R)
    (h : Call.setControlMode JointControlMode.Force ∈ cs) :
    (run dbl drv hash cs s).pImpl.jointControlMode = JointControlMode.Force := by
  induction cs generalizing s with
  | nil => cases h
  | cons c cs ih =>
    show (run dbl drv hash cs (step dbl drv hash c s)).pImpl.jointControlMode = _
    by_cases hc : c = Call.setControlMode JointControlMode.Force
    · exact run_mode_force dbl drv hash cs _ (by rw [hc]; exact step_mode_force dbl drv hash s)
    · rcases List.mem_cons.mp h with e | m
      · exact absurd e.symm hc
      · exact ih _ m

/-- C10: from a freshly constructed joint, after any finite sequence of calls of the
adapter's methods the control mode is `Idle` or `Force`; it is `Force` exactly when the
sequence contains a call `setControlMode(Force)`; and once it is `Force` it stays `Force`
through every further sequence of calls. -/
theorem controlMode_state_machine (heap : Nat → D) (cs : List (Call R)) :
    (Joint.ctor heap : State D R).pImpl.jointControlMode = JointControlMode.Idle
    ∧ ((run dbl drv hash cs (Joint.ctor heap)).pImpl.jointControlMode = JointControlMode.Idle
        ∨ (run dbl drv hash cs (Joint.ctor heap)).pImpl.jointControlMode
            = JointControlMode.Force)
    ∧ ((run dbl drv hash cs (Joint.ctor heap)).pImpl.jointControlMode = JointControlMode.Force
        ↔ Call.setControlMode JointControlMode.Force ∈ cs)
    ∧ (∀ cs1 : List (Call R),
        (run dbl drv hash cs (Joint.ctor heap)).pImpl.jointControlMode = JointControlMode.Force →
        (run dbl drv hash cs1 (run dbl drv hash cs (Joint.ctor heap))).pImpl.jointControlMode
          = JointControlMode.Force) := by
  have hnew : (Joint.ctor heap : State D R).pImpl.jointControlMode = JointControlMode.Idle := rfl
  by_cases hmem : Call.setControlMode JointControlMode.Force ∈ cs
  · have hF := run_mode_mem dbl drv hash cs (Joint.ctor heap) hmem
    exact ⟨hnew, Or.inr hF, ⟨fun _ => hmem, fun _ => hF⟩,
      fun cs1 h => run_mode_force dbl drv hash cs1 _ h⟩
  · have hI := run_mode_other dbl drv hash cs (Joint.ctor heap) hmem
    rw [hnew] at hI
    refine ⟨hnew, Or.inl hI, ⟨fun h => ?_, fun h => absurd h hmem⟩,
      fun cs1 h => run_mode_force dbl drv hash cs1 _ h⟩
    rw [hI] at h
    cases h

end StateMachine

end ScenarioMonopod
